import Mathlib

/-!
Shallow embedding of the SafeLink Agent Core backend
(src/backend/app/main.py).

Modelling conventions:
* Python strings are `List Char`; a Python substring test `a in b` is
  `List.IsInfix` (decided by `pyIn`); `str.lower` maps `Char.toLower`
  over the characters; `str.strip` drops whitespace from both ends.
* The AWS Bedrock backend is modelled by an oracle: a function from the
  prompt sent to `invoke_model` to the outcome of the call.  An outcome
  is either a transport-level failure (an exception inside the `try`
  block of `call_bedrock`) or a parsed JSON body whose `generation`
  field is present (`some text`) or absent (`none`).
* The in-memory incident queue `INCIDENT_QUEUE` is threaded explicitly:
  `handle_incident` takes the queue before the request and returns the
  produced record (or `none` when the handler raises, i.e. on the
  `SOS_PLAYBOOKS[category]` `KeyError`) together with the queue after
  the request.
-/

/-- Python substring test `sub in s` on strings. -/
def pyIn (sub s : List Char) : Bool := decide (sub <:+: s)

/-- Python `str.lower()` (ASCII case folding, as used by the keyword rules). -/
def pyLower (s : List Char) : List Char := s.map Char.toLower

/-- Python `str.strip()`: drop whitespace from both ends. -/
def pyStrip (s : List Char) : List Char :=
  ((s.dropWhile Char.isWhitespace).reverse.dropWhile Char.isWhitespace).reverse

/-- Python iteration over a `str` yields its characters as length-one strings;
this is what `enumerate` does when `sop_steps` is a string. -/
def pyIterChars (s : List Char) : List (List Char) := s.map fun c => [c]

/-- Outcome of one `BEDROCK.invoke_model` interaction, as seen by
`call_bedrock`: either the `try` block raised, or it produced a JSON body
whose `generation` field is `some` text or absent (`none`). -/
inductive BedrockResult where
  | failure : BedrockResult
  | success (generation : Option (List Char)) : BedrockResult
deriving DecidableEq

/-- The backend, as an oracle from the prompt to the outcome of the call. -/
def Oracle : Type := List Char → BedrockResult

/-- The fixed string returned by `call_bedrock` when the call raises. -/
def errorText : List Char := "Error: Unable to process request".data

/-- The fixed string substituted when the `generation` field is missing or
whitespace-only. -/
def noResponseText : List Char := "No response from model.".data

/-- The 500-character cap of `call_bedrock` (main.py lines 100-102):
`if len(output_text) > 500: output_text = output_text[:500] + "..."`. -/
def trim500 (s : List Char) : List Char :=
  if 500 < s.length then s.take 500 ++ "...".data else s

/-- The pure part of `call_bedrock` (main.py lines 95-102 and the `except`
branch): extract `generation` (default empty), strip it, substitute the
no-response fallback when empty, cap at 500 characters; on a raised
exception return the fixed error string. -/
def bedrockText : BedrockResult → List Char
  | .failure => errorText
  | .success g =>
    let output_text := pyStrip (g.getD [])
    let output_text := if output_text = [] then noResponseText else output_text
    trim500 output_text

/-- `call_bedrock(prompt)`: one interaction with the backend oracle. -/
def call_bedrock (o : Oracle) (prompt : List Char) : List Char :=
  bedrockText (o prompt)

/-- The fixed prompt prefix of `severity_tool`. -/
def severity_prompt (message : List Char) : List Char :=
  "Classify the severity of this incident in ONE word (High, Medium, Low) ONLY: ".data
    ++ message

/-- `severity_tool(message)`. -/
def severity_tool (o : Oracle) (message : List Char) : List Char :=
  call_bedrock o (severity_prompt message)

/-- The fixed prompt prefix of `summarization_tool`. -/
def summarization_prompt (message : List Char) : List Char :=
  "Summarize this incident in ONE short sentence, concise for responders: ".data
    ++ message

/-- `summarization_tool(message)`. -/
def summarization_tool (o : Oracle) (message : List Char) : List Char :=
  call_bedrock o (summarization_prompt message)

/-- `citizen_guidance_tool(message)` (present in the source; its call site in
`handle_incident` is commented out). -/
def citizen_guidance_tool (o : Oracle) (message : List Char) : List Char :=
  call_bedrock o ("Provide very brief citizen safety guidance in 1-2 sentences: ".data
    ++ message)

/-- The `SOS_PLAYBOOKS` dict literal.  A Python `dict[key]` subscript raises
`KeyError` on a missing key, so the lookup is `Option`-valued: `none` models
the raised `KeyError`. -/
def SOS_PLAYBOOKS (key : List Char) : Option (List (List Char)) :=
  if key = "Medical Emergency".data then
    some ["Call 911 immediately via FirstNet.".data,
          "Provide exact location to dispatcher.".data,
          "Begin CPR if trained.".data,
          "Use AED if available and follow prompts.".data,
          "Stay with the person until responders arrive.".data]
  else if key = "Hazmat".data then
    some ["Move upwind, uphill, and upstream from the spill.".data,
          "Call 911 and notify HazMat response team.".data,
          "Isolate and deny entry to the affected area.".data,
          "Follow command center evacuation orders.".data]
  else if key = "Active Shooter".data then
    some ["Call 911 immediately via FirstNet.".data,
          "Follow \x27Run, Hide, Fight\x27 protocol.".data,
          "Provide dispatcher with number of shooters, location, and description.".data,
          "Do not approach law enforcement until cleared.".data]
  else none

/-- `categorize_incident(text)`: keyword groups tested in fixed order on the
lowercased text. -/
def categorize_incident (text : List Char) : List Char :=
  let text_lower := pyLower text
  if pyIn "faint".data text_lower || pyIn "collapsed".data text_lower
      || pyIn "not breathing".data text_lower then
    "Medical Emergency".data
  else if pyIn "chemical".data text_lower || pyIn "spill".data text_lower then
    "Hazmat".data
  else if pyIn "shoot".data text_lower || pyIn "gun".data text_lower then
    "Active Shooter".data
  else
    "General Incident".data

/-- The lines `f"{i + 1}. {step}"` built by `build_prompt` from the
enumerated SOP steps. -/
def sop_lines (sop_steps : List (List Char)) : List (List Char) :=
  sop_steps.enum.map fun p => (toString (p.1 + 1)).data ++ ". ".data ++ p.2

/-- `sop_text` of `build_prompt`: the numbered step lines joined by newlines. -/
def sop_text (sop_steps : List (List Char)) : List Char :=
  List.intercalate "\n".data (sop_lines sop_steps)

/-- The role-framing sentence of the prompt template. -/
def role_text : List Char := "You are a FirstNet public safety assistant.".data

/-- The constraint sentence of the prompt template forbidding invented steps. -/
def constraint_text : List Char :=
  "Do NOT invent new steps. Use only the SOP steps provided below.".data

/-- `build_prompt(incident_text, category, sop_steps)`: the f-string template
of main.py lines 164-178, with its exact indentation and blank lines. -/
def build_prompt (incident_text category : List Char)
    (sop_steps : List (List Char)) : List Char :=
  "\n    ".data
  ++ role_text
  ++ "\n    ".data
  ++ constraint_text
  ++ "\n\n    Incident: \"".data
  ++ incident_text
  ++ "\"\n    Category: ".data
  ++ category
  ++ "\n\n    SOP Steps:\n    ".data
  ++ sop_text sop_steps
  ++ "\n\n    Format the response as a checklist for the responder.\n    ".data

/-- An incident record as built by `handle_incident` and stored in
`INCIDENT_QUEUE`. -/
structure Incident where
  severity : List Char
  responder_summary : List Char
  citizen_guidance : List Char
deriving DecidableEq

/-- The string assigned to `sos_steps` by the (dead) `if not sos_steps`
branch of `handle_incident`. -/
def sos_fallback_text : List Char :=
  "I am uncertain about the SOS steps. Please call 911".data

/-- `handle_incident(report)` (POST /incident), with the queue threaded
explicitly.  Returns the record together with the queue after the request;
`none` models the handler raising (the `KeyError` of
`SOS_PLAYBOOKS[category]` on a missing key), in which case the queue is
returned unchanged.  When the dict value were falsy, Python would rebind
`sos_steps` to a string, which `build_prompt` then enumerates character by
character (`pyIterChars`). -/
def handle_incident (o : Oracle) (message : List Char) (queue : List Incident) :
    Option Incident × List Incident :=
  let severity := severity_tool o message
  let summary := summarization_tool o message
  let category := categorize_incident message
  match SOS_PLAYBOOKS category with
  | none => (none, queue)
  | some sos_steps =>
    let steps := if sos_steps.isEmpty then pyIterChars sos_fallback_text else sos_steps
    let prompt := build_prompt message category steps
    let guidance := call_bedrock o prompt
    let incident : Incident := ⟨severity, summary, guidance⟩
    (some incident, queue ++ [incident])

/-- `get_incidents()` (GET /incidents): returns the queue contents. -/
def get_incidents (queue : List Incident) : List Incident := queue

/-- Driver for a sequence of POST /incident calls: runs the handler on each
message in order, threading the queue, and collects the returned records.
`none` when any call raises. -/
def process_all (o : Oracle) :
    List (List Char) → List Incident → Option (List Incident × List Incident)
  | [], queue => some ([], queue)
  | m :: ms, queue =>
    match handle_incident o m queue with
    | (none, _) => none
    | (some r, queue2) =>
      match process_all o ms queue2 with
      | none => none
      | some (rs, qf) => some (r :: rs, qf)

/-! Helper lemmas shared by the claim theorems. -/

theorem isInfix_append_right {α : Type} (s : List α) {l t : List α}
    (h : l <:+: t) : l <:+: s ++ t := by
  obtain ⟨u, v, rfl⟩ := h
  exact ⟨s ++ u, v, by simp [List.append_assoc]⟩

theorem isInfix_self_append {α : Type} (l t : List α) : l <:+: l ++ t :=
  ⟨[], t, by simp⟩

theorem isInfix_append_left {α : Type} (t : List α) {l s : List α}
    (h : l <:+: s) : l <:+: s ++ t := by
  obtain ⟨u, v, rfl⟩ := h
  exact ⟨u, v ++ t, by simp [List.append_assoc]⟩

theorem isInfix_append_self {α : Type} (s l : List α) : l <:+: s ++ l :=
  ⟨s, [], by simp⟩

theorem handle_incident_snd (o : Oracle) (msg : List Char) (q : List Incident) :
    (handle_incident o msg q).2 =
      match (handle_incident o msg q).1 with
      | none => q
      | some r => q ++ [r] := by
  simp only [handle_incident]
  cases h : SOS_PLAYBOOKS (categorize_incident msg) <;> simp

theorem process_all_ok (o : Oracle) (msgs : List (List Char)) :
    ∀ q rs qf, process_all o msgs q = some (rs, qf) →
      qf = q ++ rs ∧ rs.length = msgs.length := by
  induction msgs with
  | nil =>
    intro q rs qf h
    simp only [process_all, Option.some.injEq, Prod.mk.injEq] at h
    obtain ⟨rfl, rfl⟩ := h
    simp
  | cons m ms ih =>
    intro q rs qf h
    simp only [process_all] at h
    rcases hh : handle_incident o m q with ⟨ro, q2⟩
    rw [hh] at h
    cases ro with
    | none => simp at h
    | some r =>
      have h2 := handle_incident_snd o m q
      rw [hh] at h2
      simp only at h2
      dsimp only at h
      cases hp : process_all o ms q2 with
      | none => rw [hp] at h; simp at h
      | some p =>
        rw [hp] at h
        rcases p with ⟨rs2, qf2⟩
        simp only [Option.some.injEq, Prod.mk.injEq] at h
        obtain ⟨rfl, rfl⟩ := h
        have := ih q2 rs2 qf2 (by rw [hp])
        obtain ⟨rfl, hlen⟩ := this
        subst h2
        constructor
        · simp [List.append_assoc]
        · simp [hlen]

/-! Claim theorems. -/

/-- C3: category classification tests keyword groups on the lowercased
message in the fixed priority order medical-distress, then hazmat, then
weapon, returning the first matching group's category and General Incident
when none matches; in particular a message containing both a
medical-distress term and a weapon term resolves to Medical Emergency. -/
theorem c3_category_priority_order :
    (∀ msg : List Char,
      categorize_incident msg =
        if "faint".data <:+: pyLower msg ∨ "collapsed".data <:+: pyLower msg
            ∨ "not breathing".data <:+: pyLower msg then
          "Medical Emergency".data
        else if "chemical".data <:+: pyLower msg ∨ "spill".data <:+: pyLower msg then
          "Hazmat".data
        else if "shoot".data <:+: pyLower msg ∨ "gun".data <:+: pyLower msg then
          "Active Shooter".data
        else "General Incident".data)
    ∧ categorize_incident "person collapsed near a man with a gun".data
        = "Medical Emergency".data := by
  constructor
  · intro msg
    simp only [categorize_incident, pyIn, Bool.or_eq_true, decide_eq_true_eq,
      or_assoc]
  · decide

/-- C5: backend text longer than 500 characters is truncated to its first
500 characters followed by the ellipsis marker, giving length exactly 503
and the ellipsis as suffix; text of at most 500 characters is returned
unmodified. -/
theorem c5_truncation_cap (s : List Char) :
    (500 < s.length →
      trim500 s = s.take 500 ++ "...".data
        ∧ (trim500 s).length = 503 ∧ "...".data <:+ trim500 s)
    ∧ (s.length ≤ 500 → trim500 s = s) := by
  constructor
  · intro h
    have he : trim500 s = s.take 500 ++ "...".data := by rw [trim500, if_pos h]
    refine ⟨he, ?_, ?_⟩
    · rw [he]
      simp [List.length_append, List.length_take]
      omega
    · rw [he]
      exact List.suffix_append _ _
  · intro h
    rw [trim500, if_neg (by omega)]

/-- Witness for C5: a 501-character input is truncated as stated; a short
input is returned unmodified. -/
theorem c5_truncation_cap_witness :
    (trim500 (List.replicate 501 'a') =
        (List.replicate 501 'a').take 500 ++ "...".data
      ∧ (trim500 (List.replicate 501 'a')).length = 503
      ∧ "...".data <:+ trim500 (List.replicate 501 'a'))
    ∧ trim500 "short".data = "short".data :=
  ⟨(c5_truncation_cap _).1 (by rw [List.length_replicate]; omega),
   (c5_truncation_cap _).2 (by decide)⟩

/-- C9: the handler appends exactly the record it returns and only as its
final step; when it raises (missing playbook key) the queue is unchanged. -/
theorem c9_append_atomicity (o : Oracle) (msg : List Char) (q : List Incident) :
    (handle_incident o msg q).2 =
      match (handle_incident o msg q).1 with
      | none => q
      | some r => q ++ [r] :=
  handle_incident_snd o msg q

/-- C10: the backend helper never produces an empty string, and when the
generation field is absent or whitespace-only it produces the fixed
no-response fallback string. -/
theorem c10_no_empty_backend_text (r : BedrockResult) :
    bedrockText r ≠ []
    ∧ ∀ g : Option (List Char), r = BedrockResult.success g →
        pyStrip (g.getD []) = [] → bedrockText r = noResponseText := by
  constructor
  · cases r with
    | failure => decide
    | success g =>
      simp only [bedrockText]
      by_cases h : pyStrip (g.getD []) = []
      · rw [if_pos h]
        decide
      · rw [if_neg h, trim500]
        by_cases hl : 500 < (pyStrip (g.getD [])).length
        · rw [if_pos hl]
          simp
        · rw [if_neg hl]
          exact h
  · intro g hg hstrip
    subst hg
    simp only [bedrockText]
    rw [if_pos hstrip]
    decide

/-- Witness for C10: an absent generation field yields the non-empty fixed
no-response string. -/
theorem c10_no_empty_backend_text_witness :
    bedrockText (BedrockResult.success none) ≠ []
    ∧ bedrockText (BedrockResult.success none) = noResponseText :=
  ⟨(c10_no_empty_backend_text _).1,
   (c10_no_empty_backend_text _).2 none rfl (by decide)⟩

/-- C1 (counter-evidence): the category fallback value General Incident has
no entry in SOS_PLAYBOOKS, so the subscript raises KeyError and the handler
fails instead of producing the single-element uncertainty fallback; shown
here on the uncategorizable message hello even with a healthy backend. -/
theorem c1_missing_playbook_key :
    categorize_incident "hello".data = "General Incident".data
    ∧ SOS_PLAYBOOKS "General Incident".data = none
    ∧ handle_incident (fun _ => BedrockResult.success (some "ok".data))
        "hello".data [] = (none, []) := by
  refine ⟨by decide, by decide, by decide⟩

/-- C2 (counterexample): the message FIRE at 5th St contains the
high-urgency keyword fire after lowercasing, yet severity classification
returns whatever the backend answers — here Low, not High — because
severity_tool delegates to the completion backend instead of applying a
keyword rule. -/
theorem c2_counterexample :
    "fire".data <:+: pyLower "FIRE at 5th St".data
    ∧ severity_tool (fun _ => BedrockResult.success (some "Low".data))
        "FIRE at 5th St".data = "Low".data
    ∧ "Low".data ≠ "High".data := by
  refine ⟨by decide, by decide, by decide⟩

/-- C2 (amended): severity_tool builds the fixed one-word classification
prompt around the message and returns the backend's post-processed reply;
any non-whitespace backend reply of at most 500 characters is returned
verbatim (stripped), regardless of the message's keywords. -/
theorem c2_severity_delegates_to_backend (o : Oracle) (msg g : List Char)
    (h1 : o (severity_prompt msg) = BedrockResult.success (some g))
    (h2 : pyStrip g ≠ []) (h3 : (pyStrip g).length ≤ 500) :
    severity_tool o msg = pyStrip g := by
  rw [severity_tool, call_bedrock, h1]
  simp only [bedrockText, Option.getD_some]
  rw [if_neg h2, trim500, if_neg (by omega)]

/-- Witness for the amended C2: a backend replying with padded High yields
exactly the stripped reply High on a keyword-free message. -/
theorem c2_severity_delegates_to_backend_witness :
    severity_tool (fun _ => BedrockResult.success (some " High ".data))
      "help".data = pyStrip " High ".data :=
  c2_severity_delegates_to_backend _ _ _ rfl (by decide) (by decide)

/-- C4 (counter-evidence): when every backend call fails, call_bedrock does
substitute the fixed error string (first conjunct), but on an
uncategorizable report the handler still dies on the missing playbook key:
it produces no record and leaves the log unchanged, instead of returning a
complete record and appending it. -/
theorem c4_backend_failure_record :
    severity_tool (fun _ => BedrockResult.failure) "hello".data = errorText
    ∧ (handle_incident (fun _ => BedrockResult.failure) "hello".data []).1 = none
    ∧ (handle_incident (fun _ => BedrockResult.failure) "hello".data []).2 = [] := by
  refine ⟨by decide, by decide, by decide⟩

/-- C6: build_prompt is pure string construction containing the role
framing, the no-invention constraint, the narrative, the category label and
the SOP text; the rendered SOP lines are 1-indexed and preserve the input
order of the steps. -/
theorem c6_prompt_construction (narrative category : List Char)
    (steps : List (List Char)) :
    role_text <:+: build_prompt narrative category steps
    ∧ constraint_text <:+: build_prompt narrative category steps
    ∧ narrative <:+: build_prompt narrative category steps
    ∧ category <:+: build_prompt narrative category steps
    ∧ sop_text steps <:+: build_prompt narrative category steps
    ∧ ∀ i, i < steps.length →
        (sop_lines steps).getD i []
          = (toString (i + 1)).data ++ ". ".data ++ steps.getD i [] := by
  unfold build_prompt
  refine ⟨?_, ?_, ?_, ?_, ?_, ?_⟩
  · exact isInfix_append_left _ <| isInfix_append_left _ <|
      isInfix_append_left _ <| isInfix_append_left _ <|
      isInfix_append_left _ <| isInfix_append_left _ <|
      isInfix_append_left _ <| isInfix_append_left _ <|
      isInfix_append_left _ (isInfix_append_self _ _)
  · exact isInfix_append_left _ <| isInfix_append_left _ <|
      isInfix_append_left _ <| isInfix_append_left _ <|
      isInfix_append_left _ <| isInfix_append_left _ <|
      isInfix_append_left _ (isInfix_append_self _ _)
  · exact isInfix_append_left _ <| isInfix_append_left _ <|
      isInfix_append_left _ <| isInfix_append_left _ <|
      isInfix_append_left _ (isInfix_append_self _ _)
  · exact isInfix_append_left _ <| isInfix_append_left _ <|
      isInfix_append_left _ (isInfix_append_self _ _)
  · exact isInfix_append_left _ (isInfix_append_self _ _)
  · intro i hi
    have hi2 : i < (sop_lines steps).length := by
      simpa [sop_lines] using hi
    rw [List.getD_eq_getElem _ _ hi2, List.getD_eq_getElem _ _ hi]
    simp [sop_lines]

/-- Witness for C6: the prompt built for a one-step Hazmat playbook
contains the role framing, and its single SOP line is numbered 1 and
renders the single step. -/
theorem c6_prompt_construction_witness :
    role_text <:+: build_prompt "x".data "Hazmat".data ["Call 911.".data]
    ∧ (sop_lines ["Call 911.".data]).getD 0 []
        = (toString (0 + 1)).data ++ ". ".data
            ++ (["Call 911.".data] : List (List Char)).getD 0 [] := by
  have h := c6_prompt_construction "x".data "Hazmat".data ["Call 911.".data]
  exact ⟨h.1, h.2.2.2.2.2 0 (by decide)⟩

/-- C7: starting from an empty log, a sequence of successful POST /incident
calls leaves GET /incidents returning exactly the records the calls
produced, in order, one per call. -/
theorem c7_incident_roundtrip (o : Oracle) (msgs : List (List Char))
    (rs qf : List Incident) (h : process_all o msgs [] = some (rs, qf)) :
    get_incidents qf = rs ∧ rs.length = msgs.length := by
  have hh := process_all_ok o msgs [] rs qf h
  simpa [get_incidents] using hh

/-- Witness for C7: two successful calls (failing backend, curated
categories) append exactly their two error-text records in order. -/
theorem c7_incident_roundtrip_witness :
    get_incidents
        ([⟨errorText, errorText, errorText⟩, ⟨errorText, errorText, errorText⟩] :
          List Incident)
      = ([⟨errorText, errorText, errorText⟩, ⟨errorText, errorText, errorText⟩] :
          List Incident)
    ∧ ([⟨errorText, errorText, errorText⟩, ⟨errorText, errorText, errorText⟩] :
          List Incident).length
      = (["I see a chemical spill".data, "a man with a gun".data] :
          List (List Char)).length :=
  c7_incident_roundtrip (fun _ => BedrockResult.failure)
    ["I see a chemical spill".data, "a man with a gun".data] _ _ (by decide)

/-- C8 (counterexample): two invocations of severity classification on the
same message, differing only in the backend's answer, disagree — the result
is not a pure function of the message. -/
theorem c8_counterexample :
    severity_tool (fun _ => BedrockResult.success (some "High".data)) "help".data
      ≠ severity_tool (fun _ => BedrockResult.success (some "Medium".data))
          "help".data := by
  decide

/-- C8 (amended): category classification is a deterministic pure function
of the message, but severity classification consults the backend: for every
message there are backend behaviours under which its results differ. -/
theorem c8_category_pure_severity_backend :
    (∀ msg : List Char, categorize_incident msg = categorize_incident msg)
    ∧ ∀ msg : List Char, ∃ o1 o2 : Oracle,
        severity_tool o1 msg ≠ severity_tool o2 msg := by
  refine ⟨fun _ => rfl, fun msg =>
    ⟨fun _ => BedrockResult.success (some "High".data),
     fun _ => BedrockResult.success (some "Medium".data), ?_⟩⟩
  simp only [severity_tool, call_bedrock]
  decide
